import Mathlib

/-!
Shallow embedding of the Multiverse extension storage layer
(`apps/extension/src/shared/index.ts`): the `StorageManager` class and the
legacy `ExtensionStorage` facade, together with proofs of the storage-layer
properties (single active workspace, cascading delete, highlight cap,
settings merge, save/get round trip, export/import round trip, error
handling, legacy views).

The two `chrome.storage` partitions (sync and local) are modelled by a
single `Store` record whose fields are the fixed keys the storage layer
uses, each an `Option` to distinguish an absent key from a present one,
plus an association list for the dynamic `quickNotes_*` key family.
Backend failure ("backend unavailable / quota exceeded") is modelled by a
`fail` field: when it is `some cause`, every backend get/set/remove/clear
throws `cause`.  Asynchronous methods become functions in the monad
`M α = Store → Except String α × Store`; `await` is monadic bind, and
JavaScript `try`/`catch` is `tryCatchM`.  `Date.now()` and random id
generation are passed in as explicit parameters.
-/

/-- Field `theme?: 'light' | 'dark' | 'auto'` from the `Settings` interface. -/
inductive Theme where
  | light
  | dark
  | auto
deriving DecidableEq

/-- The `Settings` interface, viewed as a JavaScript object in which each
recognized field may be present (`some`) or absent (`none`).  This one type
models both partial settings objects (`Partial<Settings>`) and the stored /
effective record; spread-merge (`{...a, ...b}`) is `mergeSettings`. -/
structure Settings where
  openaiApiKey : Option String
  notionApiKey : Option String
  notionIntegrationEnabled : Option Bool
  focusModeEnabled : Option Bool
  autoSaveTabSets : Option Bool
  theme : Option Theme
  maxHighlights : Option Nat
deriving DecidableEq

/-- The `Workspace` interface. -/
structure Workspace where
  id : String
  name : String
  description : Option String
  createdAt : Nat
  updatedAt : Nat
  isActive : Bool
  color : Option String
  icon : Option String
deriving DecidableEq

/-- The `TabRef` interface. -/
structure TabRef where
  id : String
  url : String
  title : String
  favIconUrl : Option String
  pinned : Bool
  index : Nat
deriving DecidableEq

/-- The `TabSet` interface. -/
structure TabSet where
  id : String
  workspaceId : String
  name : String
  tabs : List TabRef
  createdAt : Nat
  updatedAt : Nat
deriving DecidableEq

/-- The `Highlight` interface. -/
structure Highlight where
  id : String
  text : String
  url : String
  title : String
  createdAt : Nat
  tags : Option (List String)
deriving DecidableEq

/-- The map `Record<WorkspaceId, Highlight[]>` stored under
`mv_highlights`, as an association list in object-insertion order. -/
abbrev HighlightMap := List (String × List Highlight)

/-- The combined contents of the two `chrome.storage` partitions, one field
per fixed storage key (`none` = key absent), plus the dynamic
`quickNotes_*` key family of the local partition.  `fail` models backend
availability: `some cause` makes every backend operation throw `cause`. -/
structure Store where
  /-- local key `mv_workspaces` -/
  workspaces : Option (List Workspace)
  /-- local key `mv_tab_sets` -/
  tabSets : Option (List TabSet)
  /-- local key `mv_highlights` -/
  highlights : Option HighlightMap
  /-- local keys `quickNotes_<workspaceId>` (full key name → value) -/
  quickNotes : List (String × String)
  /-- sync key `mv_settings` -/
  settings : Option Settings
  /-- sync key `mv_active_workspace` -/
  activeWorkspace : Option String
  /-- backend failure mode: `some cause` ⇒ every backend call rejects -/
  fail : Option String
deriving DecidableEq

/-- The monad of asynchronous storage methods: state passing over `Store`
with JavaScript-style exceptions carrying a message string. -/
def M (α : Type) : Type := Store → Except String α × Store

def M.pure {α : Type} (a : α) : M α := fun st => (.ok a, st)

def M.bind {α β : Type} (x : M α) (f : α → M β) : M β := fun st =>
  match x st with
  | (.ok a, st') => f a st'
  | (.error e, st') => (.error e, st')

instance : Monad M where
  pure := M.pure
  bind := M.bind

/-- Models `throw new Error(msg)`. -/
def throwM {α : Type} (msg : String) : M α := fun st => (.error msg, st)

/-- Models `try { body } catch (error) { handler(error) }`. -/
def tryCatchM {α : Type} (body : M α) (handler : String → M α) : M α :=
  fun st =>
    match body st with
    | (.ok a, st') => (.ok a, st')
    | (.error e, st') => handler e st'

/-- A backend read of one key: rejects when the backend is failing,
otherwise returns the key's current value without changing state. -/
def backendGet {α : Type} (read : Store → α) : M α := fun st =>
  match st.fail with
  | some cause => (.error cause, st)
  | none => (.ok (read st), st)

/-- A backend write (set/remove/clear): rejects when the backend is
failing, otherwise applies the update. -/
def backendSet (write : Store → Store) : M Unit := fun st =>
  match st.fail with
  | some cause => (.error cause, st)
  | none => (.ok (), write st)

-- chrome.storage primitives, one per key the storage layer touches.

/-- Backend call `chrome.storage.local.get([STORAGE_KEYS.WORKSPACES])`. -/
def localGetWorkspaces : M (Option (List Workspace)) :=
  backendGet (fun st => st.workspaces)

/-- Backend call `chrome.storage.local.set({ [STORAGE_KEYS.WORKSPACES]: v })`. -/
def localSetWorkspaces (v : List Workspace) : M Unit :=
  backendSet (fun st => { st with workspaces := some v })

/-- Backend call `chrome.storage.local.get([STORAGE_KEYS.TAB_SETS])`. -/
def localGetTabSets : M (Option (List TabSet)) :=
  backendGet (fun st => st.tabSets)

/-- Backend call `chrome.storage.local.set({ [STORAGE_KEYS.TAB_SETS]: v })`. -/
def localSetTabSets (v : List TabSet) : M Unit :=
  backendSet (fun st => { st with tabSets := some v })

/-- Backend call `chrome.storage.local.get([STORAGE_KEYS.HIGHLIGHTS])`. -/
def localGetHighlights : M (Option HighlightMap) :=
  backendGet (fun st => st.highlights)

/-- Backend call `chrome.storage.local.set({ [STORAGE_KEYS.HIGHLIGHTS]: v })`. -/
def localSetHighlights (v : HighlightMap) : M Unit :=
  backendSet (fun st => { st with highlights := some v })

/-- Backend call `chrome.storage.sync.get([STORAGE_KEYS.SETTINGS])`. -/
def syncGetSettings : M (Option Settings) :=
  backendGet (fun st => st.settings)

/-- Backend call `chrome.storage.sync.set({ [STORAGE_KEYS.SETTINGS]: v })`. -/
def syncSetSettings (v : Settings) : M Unit :=
  backendSet (fun st => { st with settings := some v })

/-- Backend call `chrome.storage.sync.get([STORAGE_KEYS.ACTIVE_WORKSPACE])`. -/
def syncGetActive : M (Option String) :=
  backendGet (fun st => st.activeWorkspace)

/-- Backend call `chrome.storage.sync.set({ [STORAGE_KEYS.ACTIVE_WORKSPACE]: id })`. -/
def syncSetActive (id : String) : M Unit :=
  backendSet (fun st => { st with activeWorkspace := some id })

/-- Backend call `chrome.storage.sync.remove([STORAGE_KEYS.ACTIVE_WORKSPACE])`. -/
def syncRemoveActive : M Unit :=
  backendSet (fun st => { st with activeWorkspace := none })

/-- Backend call `chrome.storage.local.get([key])` for a dynamic `quickNotes_*` key. -/
def localGetQuickNote (key : String) : M (Option String) :=
  backendGet (fun st => (st.quickNotes.find? (fun p => p.1 == key)).map (fun p => p.2))

/-- Backend call `chrome.storage.local.set({ [key]: value })` for a `quickNotes_*` key:
replaces the entry if the key exists, otherwise appends it. -/
def qnSet (key value : String) : List (String × String) → List (String × String)
  | [] => [(key, value)]
  | p :: ps => if p.1 == key then (key, value) :: ps else p :: qnSet key value ps

def localSetQuickNote (key value : String) : M Unit :=
  backendSet (fun st => { st with quickNotes := qnSet key value st.quickNotes })

/-- Backend call `chrome.storage.sync.clear()`. -/
def syncClear : M Unit :=
  backendSet (fun st => { st with settings := none, activeWorkspace := none })

/-- Backend call `chrome.storage.local.clear()`. -/
def localClear : M Unit :=
  backendSet (fun st =>
    { st with workspaces := none, tabSets := none, highlights := none, quickNotes := [] })

-- StorageManager methods.

/-- Method `StorageManager.listWorkspaces`: `result[KEY] || []`, catching backend
failure and degrading to `[]`. -/
def listWorkspaces : M (List Workspace) :=
  tryCatchM
    (do
      let result ← localGetWorkspaces
      pure (result.getD []))
    (fun _ => pure [])

/-- Method `StorageManager.getWorkspace`: linear scan of `listWorkspaces()`,
`find(...) || null`, degrading to `null` on failure. -/
def getWorkspace (id : String) : M (Option Workspace) :=
  tryCatchM
    (do
      let workspaces ← listWorkspaces
      pure (workspaces.find? (fun w => w.id == id)))
    (fun _ => pure none)

/-- The upsert inside `StorageManager.saveWorkspace`: replace the first
record with matching id by `{...workspace, updatedAt: now}` (the source's
`findIndex` + indexed assignment), else `push` the record unchanged. -/
def upsertWorkspace (workspace : Workspace) (now : Nat) :
    List Workspace → List Workspace
  | [] => [workspace]
  | w :: ws =>
    if w.id == workspace.id then { workspace with updatedAt := now } :: ws
    else w :: upsertWorkspace workspace now ws

/-- Method `StorageManager.saveWorkspace`: upsert by id and write the collection
back; on failure throws `Failed to save workspace: <cause>`. -/
def saveWorkspace (workspace : Workspace) (now : Nat) : M Unit :=
  tryCatchM
    (do
      let workspaces ← listWorkspaces
      localSetWorkspaces (upsertWorkspace workspace now workspaces))
    (fun e => throwM ("Failed to save workspace: " ++ e))

/-- JavaScript `value || null` on an optional string read from storage: an
absent key or a falsy (empty) string collapses to `null`. -/
def orNullStr : Option String → Option String
  | some s => if s == "" then none else some s
  | none => none

/-- Method `StorageManager.getActiveWorkspace`: `result[KEY] || null` — the
JavaScript `||` collapses both an absent key and a falsy (empty-string)
stored pointer to `null` — degrading to `null` on failure. -/
def getActiveWorkspace : M (Option String) :=
  tryCatchM
    (do
      let result ← syncGetActive
      pure (orNullStr result))
    (fun _ => pure none)

/-- Method `StorageManager.setActiveWorkspace`: store (or remove) the pointer,
then rewrite every workspace's `isActive` flag to `w.id === id`, bumping
`updatedAt` only on the newly active workspace; on failure throws
`Failed to set active workspace: <cause>`. -/
def setActiveWorkspace (id : Option String) (now : Nat) : M Unit :=
  tryCatchM
    (do
      match id with
      | none => syncRemoveActive
      | some i => syncSetActive i
      let workspaces ← listWorkspaces
      let updatedWorkspaces := workspaces.map (fun w =>
        { w with
          isActive := some w.id == id
          updatedAt := if some w.id == id then now else w.updatedAt })
      localSetWorkspaces updatedWorkspaces)
    (fun e => throwM ("Failed to set active workspace: " ++ e))

-- Tab-set management.

/-- Method `StorageManager.getAllTabSets` (bare internal helper, no catch):
`result[KEY] || []`. -/
def getAllTabSets : M (List TabSet) := do
  let result ← localGetTabSets
  pure (result.getD [])

/-- JavaScript `value || fallback` on an optional string: an absent value
or a falsy (empty) string selects the fallback. -/
def orFalsy (v : Option String) (fallback : String) : String :=
  match v with
  | some s => if s == "" then fallback else s
  | none => fallback

/-- Method `StorageManager.saveTabSet`: build a new `TabSet` and push it onto the
global collection.  The name defaults via the JavaScript `||`, so a passed
empty-string name also falls back to the date-derived label.  The generated
id `ts_<now>_<random>` and the date-derived default name are
nondeterministic in the source (`Date.now()`, `Math.random`,
`toLocaleDateString`), so they are passed in as the parameters `tabSetId`
and `dateLabel`. -/
def saveTabSet (workspaceId : String) (tabs : List TabRef)
    (name : Option String) (now : Nat) (tabSetId : String)
    (dateLabel : String) : M String :=
  tryCatchM
    (do
      let tabSet : TabSet :=
        { id := tabSetId
          workspaceId := workspaceId
          name := orFalsy name ("Tab Set " ++ dateLabel)
          tabs := tabs
          createdAt := now
          updatedAt := now }
      let allTabSets ← getAllTabSets
      localSetTabSets (allTabSets ++ [tabSet])
      pure tabSetId)
    (fun e => throwM ("Failed to save tab set: " ++ e))

/-- Method `StorageManager.getTabSet`: `find(...) || null`, degrading to `null`. -/
def getTabSet (id : String) : M (Option TabSet) :=
  tryCatchM
    (do
      let allTabSets ← getAllTabSets
      pure (allTabSets.find? (fun ts => ts.id == id)))
    (fun _ => pure none)

/-- Method `StorageManager.getWorkspaceTabSets`: filter by `workspaceId`,
degrading to `[]`. -/
def getWorkspaceTabSets (workspaceId : String) : M (List TabSet) :=
  tryCatchM
    (do
      let allTabSets ← getAllTabSets
      pure (allTabSets.filter (fun ts => ts.workspaceId == workspaceId)))
    (fun _ => pure [])

-- Highlight management.

/-- Method `StorageManager.getAllHighlights` (bare internal helper, no catch):
`result[KEY] || {}`. -/
def getAllHighlights : M HighlightMap := do
  let result ← localGetHighlights
  pure (result.getD [])

/-- JavaScript object read `m[k]`: the value at key `k`, if present. -/
def getGroup (m : HighlightMap) (k : String) : Option (List Highlight) :=
  (m.find? (fun p => p.1 == k)).map (fun p => p.2)

/-- JavaScript object write `m[k] = v`: replace the entry if the key
exists (objects have unique keys), else append it in insertion order. -/
def setGroup (k : String) (v : List Highlight) : HighlightMap → HighlightMap
  | [] => [(k, v)]
  | p :: ps => if p.1 == k then (k, v) :: ps else p :: setGroup k v ps

-- Settings management (defined before appendHighlight, which reads them).

/-- The `defaultSettings` literal inside `StorageManager.getSettings`. -/
def defaultSettings : Settings :=
  { openaiApiKey := none
    notionApiKey := none
    notionIntegrationEnabled := some false
    focusModeEnabled := some false
    autoSaveTabSets := some false
    theme := some .auto
    maxHighlights := some 50 }

/-- A settings object with every key absent (`{}`); spreading it is a
no-op. -/
def emptySettings : Settings :=
  { openaiApiKey := none
    notionApiKey := none
    notionIntegrationEnabled := none
    focusModeEnabled := none
    autoSaveTabSets := none
    theme := none
    maxHighlights := none }

/-- One field of a spread merge `{...old, ...new}`: the new object's value
if the key is present there, else the old one's. -/
def mergeField {α : Type} (old upd : Option α) : Option α :=
  match upd with
  | some v => some v
  | none => old

/-- Spread merge `{...a, ...b}` on settings objects, field by field. -/
def mergeSettings (a b : Settings) : Settings :=
  { openaiApiKey := mergeField a.openaiApiKey b.openaiApiKey
    notionApiKey := mergeField a.notionApiKey b.notionApiKey
    notionIntegrationEnabled :=
      mergeField a.notionIntegrationEnabled b.notionIntegrationEnabled
    focusModeEnabled := mergeField a.focusModeEnabled b.focusModeEnabled
    autoSaveTabSets := mergeField a.autoSaveTabSets b.autoSaveTabSets
    theme := mergeField a.theme b.theme
    maxHighlights := mergeField a.maxHighlights b.maxHighlights }

/-- Method `StorageManager.getSettings`: `{...defaultSettings, ...result[KEY]}`,
degrading to the defaults literal on failure. -/
def getSettings : M Settings :=
  tryCatchM
    (do
      let result ← syncGetSettings
      pure (mergeSettings defaultSettings (result.getD emptySettings)))
    (fun _ =>
      pure
        { openaiApiKey := none
          notionApiKey := none
          notionIntegrationEnabled := some false
          focusModeEnabled := some false
          autoSaveTabSets := some false
          theme := some .auto
          maxHighlights := some 50 })

/-- Method `StorageManager.saveSettings`: merge the partial object over the
current effective settings and write the result; throws
`Failed to save settings: <cause>` on failure. -/
def saveSettings (settings : Settings) : M Unit :=
  tryCatchM
    (do
      let currentSettings ← getSettings
      syncSetSettings (mergeSettings currentSettings settings))
    (fun e => throwM ("Failed to save settings: " ++ e))

/-- Method `StorageManager.appendHighlight`: ensure the workspace's group exists,
`unshift` the highlight, then truncate to `settings.maxHighlights || 50`
(note the JavaScript `||`: a stored cap of 0 is falsy and falls back to
50); throws `Failed to append highlight: <cause>` on failure. -/
def appendHighlight (workspaceId : String) (highlight : Highlight) : M Unit :=
  tryCatchM
    (do
      let allHighlights ← getAllHighlights
      let allHighlights :=
        match getGroup allHighlights workspaceId with
        | none => setGroup workspaceId [] allHighlights
        | some _ => allHighlights
      let allHighlights :=
        setGroup workspaceId
          (highlight :: (getGroup allHighlights workspaceId).getD [])
          allHighlights
      let settings ← getSettings
      let maxHighlights :=
        match settings.maxHighlights with
        | some k => if k == 0 then 50 else k
        | none => 50
      let allHighlights :=
        if ((getGroup allHighlights workspaceId).getD []).length > maxHighlights
        then
          setGroup workspaceId
            (((getGroup allHighlights workspaceId).getD []).take maxHighlights)
            allHighlights
        else allHighlights
      localSetHighlights allHighlights)
    (fun e => throwM ("Failed to append highlight: " ++ e))

/-- Method `StorageManager.getHighlights`: `(allHighlights[id] || []).slice(0, limit)`,
degrading to `[]` on failure.  The source defaults `limit` to 50; here it
is always passed explicitly. -/
def getHighlights (workspaceId : String) (limit : Nat) : M (List Highlight) :=
  tryCatchM
    (do
      let allHighlights ← getAllHighlights
      let workspaceHighlights := (getGroup allHighlights workspaceId).getD []
      pure (workspaceHighlights.take limit))
    (fun _ => pure [])

/-- Method `StorageManager.deleteWorkspace`: four sequential backend writes —
filter the workspace out of the collection, clear the active pointer if it
pointed at the deleted workspace (via `setActiveWorkspace`, keeping the
`isActive` flags consistent), filter its tab sets, drop its highlight
group; throws `Failed to delete workspace: <cause>` on failure. -/
def deleteWorkspace (id : String) (now : Nat) : M Unit :=
  tryCatchM
    (do
      let workspaces ← listWorkspaces
      localSetWorkspaces (workspaces.filter (fun w => w.id != id))
      let activeWorkspace ← getActiveWorkspace
      if activeWorkspace == some id then
        setActiveWorkspace none now
      let tabSets ← getAllTabSets
      localSetTabSets (tabSets.filter (fun ts => ts.workspaceId != id))
      let highlights ← getAllHighlights
      localSetHighlights (highlights.filter (fun p => p.1 != id)))
    (fun e => throwM ("Failed to delete workspace: " ++ e))

-- Utility methods.

/-- Method `StorageManager.clearAllData`: clear both partitions; throws
`Failed to clear all data: <cause>` on failure. -/
def clearAllData : M Unit :=
  tryCatchM
    (do
      syncClear
      localClear)
    (fun e => throwM ("Failed to clear all data: " ++ e))

/-- The raw dump of the sync partition that `chrome.storage.sync.get(null)`
returns. -/
structure SyncDump where
  settings : Option Settings
  activeWorkspace : Option String
deriving DecidableEq

/-- The raw dump of the local partition that
`chrome.storage.local.get(null)` returns. -/
structure LocalDump where
  workspaces : Option (List Workspace)
  tabSets : Option (List TabSet)
  highlights : Option HighlightMap
  quickNotes : List (String × String)
deriving DecidableEq

/-- Backend call `chrome.storage.sync.get(null)`. -/
def syncGetAll : M SyncDump :=
  backendGet (fun st =>
    { settings := st.settings, activeWorkspace := st.activeWorkspace })

/-- Backend call `chrome.storage.local.get(null)`. -/
def localGetAll : M LocalDump :=
  backendGet (fun st =>
    { workspaces := st.workspaces
      tabSets := st.tabSets
      highlights := st.highlights
      quickNotes := st.quickNotes })

/-- Models `Object.assign` of one dynamic-key map onto another: each update entry
overrides an existing key in place or is appended. -/
def qnSetAll (upd : List (String × String)) (base : List (String × String)) :
    List (String × String) :=
  upd.foldl (fun acc p => qnSet p.1 p.2 acc) base

/-- Backend call `chrome.storage.sync.set(dump)`: write every key present in the dump;
keys absent from the dump are untouched (additive merge). -/
def syncSetAll (d : SyncDump) : M Unit :=
  backendSet (fun st =>
    { st with
      settings := mergeField st.settings d.settings
      activeWorkspace := mergeField st.activeWorkspace d.activeWorkspace })

/-- Backend call `chrome.storage.local.set(dump)`: write every key present in the dump;
keys absent from the dump are untouched (additive merge). -/
def localSetAll (d : LocalDump) : M Unit :=
  backendSet (fun st =>
    { st with
      workspaces := mergeField st.workspaces d.workspaces
      tabSets := mergeField st.tabSets d.tabSets
      highlights := mergeField st.highlights d.highlights
      quickNotes := qnSetAll d.quickNotes st.quickNotes })

/-- The `{sync, local, exportedAt, version}` bundle returned by
`StorageManager.exportData`.  The TS `local` field is named `localData`
(`local` is reserved in Lean). -/
structure ExportBundle where
  sync : SyncDump
  localData : LocalDump
  exportedAt : Nat
  version : String
deriving DecidableEq

/-- Method `StorageManager.exportData`: dump both partitions verbatim; throws
`Failed to export data: <cause>` on failure.  `Date.now()` is the `now`
parameter. -/
def exportData (now : Nat) : M ExportBundle :=
  tryCatchM
    (do
      let syncData ← syncGetAll
      let localData ← localGetAll
      pure
        { sync := syncData
          localData := localData
          exportedAt := now
          version := "1.0.0" })
    (fun e => throwM ("Failed to export data: " ++ e))

/-- Method `StorageManager.importData`: write the given key maps back into the
respective partitions (additive merge, no clear first); throws
`Failed to import data: <cause>` on failure. -/
def importData (sync : SyncDump) (localData : LocalDump) : M Unit :=
  tryCatchM
    (do
      syncSetAll sync
      localSetAll localData)
    (fun e => throwM ("Failed to import data: " ++ e))

-- Legacy ExtensionStorage facade.

/-- The loosely-typed `unknown` values flowing through the legacy
`ExtensionStorage.get`/`set` API, one constructor per shape the facade
handles. -/
inductive LegacyValue where
  | workspaces (ws : List Workspace)
  | activeId (id : Option String)
  | config (s : Settings)
  | tabSets (ts : List TabSet)
  | savedTexts (hs : List Highlight)
  | quickNote (v : Option String)
  | undefinedValue
deriving DecidableEq

/-- The TS cast `value as Workspace[]` in the `workspaces` branch of
`ExtensionStorage.set` (unchecked in the source; a value of another shape
defaults to `[]` here). -/
def LegacyValue.asWorkspaces : LegacyValue → List Workspace
  | .workspaces ws => ws
  | _ => []

/-- The TS cast `value as WorkspaceId` in the `activeWorkspaceId` branch
of `ExtensionStorage.set`. -/
def LegacyValue.asActiveId : LegacyValue → Option String
  | .activeId i => i
  | _ => none

/-- The TS cast `value as Settings` in the `config` branch of
`ExtensionStorage.set`. -/
def LegacyValue.asConfig : LegacyValue → Settings
  | .config s => s
  | _ => emptySettings

/-- The raw value written for a dynamic `quickNotes_*` key. -/
def LegacyValue.asQuickNote : LegacyValue → String
  | .quickNote (some v) => v
  | _ => ""

/-- Method `ExtensionStorage.get`: the legacy read switch.  `savedTexts` is
`Object.values(allHighlights).flat()`; unknown keys without the
`quickNotes_` prefix return `undefined`. -/
def ExtensionStorage.get (key : String) : M LegacyValue := do
  if key == "workspaces" then
    let ws ← listWorkspaces
    pure (.workspaces ws)
  else if key == "activeWorkspaceId" then
    let a ← getActiveWorkspace
    pure (.activeId a)
  else if key == "config" then
    let s ← getSettings
    pure (.config s)
  else if key == "tabSets" then
    let ts ← getAllTabSets
    pure (.tabSets ts)
  else if key == "savedTexts" then
    let highlights ← getAllHighlights
    pure (.savedTexts (highlights.map (fun p => p.2)).flatten)
  else if key.startsWith "quickNotes_" then
    let result ← localGetQuickNote key
    pure (.quickNote result)
  else
    pure .undefinedValue

/-- Method `ExtensionStorage.set`: the legacy write switch.  Only `workspaces`,
`activeWorkspaceId`, `config` and `quickNotes_*` keys are handled; every
other key (including `tabSets` and `savedTexts`) falls through the
`default` branch and performs no write at all. -/
def ExtensionStorage.set (key : String) (value : LegacyValue) (now : Nat) :
    M Unit := do
  if key == "workspaces" then
    localSetWorkspaces value.asWorkspaces
  else if key == "activeWorkspaceId" then
    setActiveWorkspace value.asActiveId now
  else if key == "config" then
    saveSettings value.asConfig
  else
    if key.startsWith "quickNotes_" then
      localSetQuickNote key value.asQuickNote
    else
      pure ()

-- Sequencing helpers used by the claims about call sequences.

/-- Run a sequence of `setActiveWorkspace` calls, each with its own
argument and `Date.now()` value. -/
def setActiveSeq : List (Option String × Nat) → M Unit
  | [] => pure ()
  | c :: rest => do
    setActiveWorkspace c.1 c.2
    setActiveSeq rest

/-- Run a sequence of `appendHighlight` calls for one workspace, in list
order. -/
def appendHighlightSeq (workspaceId : String) : List Highlight → M Unit
  | [] => pure ()
  | h :: rest => do
    appendHighlight workspaceId h
    appendHighlightSeq workspaceId rest

/-- Composite `importData(exportData())`: export then immediately re-import the
bundle (the TS call site passes the whole bundle; `importData` reads its
`sync` and `local` fields). -/
def exportImportRoundTrip (now : Nat) : M Unit := do
  let d ← exportData now
  importData d.sync d.localData

/-- The workspace collection currently stored (`mv_workspaces || []`). -/
def storedWorkspaces (st : Store) : List Workspace :=
  st.workspaces.getD []

/-- The ids of the stored workspaces are pairwise distinct (the data-model
invariant: ids are generated globally unique). -/
def workspaceIdsNodup (st : Store) : Prop :=
  ((storedWorkspaces st).map Workspace.id).Nodup

instance (st : Store) : Decidable (workspaceIdsNodup st) :=
  List.nodupDecidable _

/-- The highlight group stored for `workspaceId` (`mv_highlights[id] || []`). -/
def storedGroup (st : Store) (workspaceId : String) : List Highlight :=
  (getGroup (st.highlights.getD []) workspaceId).getD []

/-- The effective `maxHighlights` value of the current settings, as
`getSettings` computes it. -/
def effectiveMaxHighlights (st : Store) : Option Nat :=
  (mergeSettings defaultSettings (st.settings.getD emptySettings)).maxHighlights

/-- Decidable equality of `Except` results, used to evaluate concrete
storage operations in the example theorems. -/
instance exceptDecEq {ε α : Type} [DecidableEq ε] [DecidableEq α] :
    DecidableEq (Except ε α)
  | .ok a, .ok b =>
    match decEq a b with
    | isTrue h => isTrue (by rw [h])
    | isFalse h => isFalse (by intro hh; cases hh; exact h rfl)
  | .ok _, .error _ => isFalse (by intro h; cases h)
  | .error _, .ok _ => isFalse (by intro h; cases h)
  | .error e, .error f =>
    match decEq e f with
    | isTrue h => isTrue (by rw [h])
    | isFalse h => isFalse (by intro hh; cases hh; exact h rfl)

-- Concrete fixtures used to evaluate the verified properties on examples.

/-- A concrete highlight fixture. -/
def hFix1 : Highlight := ⟨"h1", "to be", "https://a", "A", 1, none⟩

/-- A concrete highlight fixture. -/
def hFix2 : Highlight := ⟨"h2", "or not", "https://b", "B", 2, none⟩

/-- A concrete highlight fixture. -/
def hFix3 : Highlight := ⟨"h3", "that is", "https://c", "C", 3, none⟩

/-- A concrete workspace fixture with id `a`. -/
def wsFixA : Workspace := ⟨"a", "Research", none, 0, 0, false, none, none⟩

/-- A concrete workspace fixture with id `b`. -/
def wsFixB : Workspace := ⟨"b", "Writing", none, 0, 0, true, none, none⟩

/-- A concrete tab-set fixture owned by workspace `a`. -/
def tsFix1 : TabSet := ⟨"t1", "a", "Set1", [], 0, 0⟩

/-- A concrete tab-set fixture owned by workspace `b`. -/
def tsFix2 : TabSet := ⟨"t2", "b", "Set2", [], 0, 0⟩

/-- A store in which every key is absent and the backend is healthy. -/
def emptyStore : Store := ⟨none, none, none, [], none, none, none⟩

/-- A populated store: two workspaces, their tab sets and highlight groups,
workspace `a` active. -/
def demoStore : Store :=
  ⟨some [wsFixA, wsFixB], some [tsFix1, tsFix2],
    some [("a", [hFix1]), ("b", [])], [], none, some "a", none⟩

/-- A store whose backend rejects every call. -/
def failingStore : Store :=
  ⟨none, none, none, [], none, none, some "backend unavailable"⟩

/-- A store whose settings cap highlights at 2. -/
def capTwoStore : Store :=
  ⟨none, none, none, [], some { emptySettings with maxHighlights := some 2 }, none, none⟩

/-- A store whose settings cap highlights at 0 (a falsy cap in JavaScript). -/
def capZeroStore : Store :=
  ⟨none, none, none, [], some { emptySettings with maxHighlights := some 0 }, none, none⟩

/-- A partial settings fixture carrying only a theme. -/
def sFixA : Settings := { emptySettings with theme := some .dark }

/-- A partial settings fixture carrying only a highlight cap. -/
def sFixB : Settings := { emptySettings with maxHighlights := some 7 }

/-- One fixture more: an update record reusing id `a` with a new name. -/
def wsFixRenamed : Workspace := ⟨"a", "Renamed", none, 0, 0, false, none, none⟩

-- Unfolding equations for the monad, and evaluation ("run") lemmas for each
-- storage operation on a store whose backend is healthy (`fail = none`).

theorem M.bind_def {α β : Type} (x : M α) (f : α → M β) :
    (x >>= f) = M.bind x f := rfl

theorem M.pure_def {α : Type} (a : α) : (Pure.pure a : M α) = M.pure a := rfl

theorem listWorkspaces_run (ws ts hl qn se aw) :
    listWorkspaces ⟨ws, ts, hl, qn, se, aw, none⟩ =
      (.ok (ws.getD []), ⟨ws, ts, hl, qn, se, aw, none⟩) := rfl

theorem getWorkspace_run (id ws ts hl qn se aw) :
    getWorkspace id ⟨ws, ts, hl, qn, se, aw, none⟩ =
      (.ok ((ws.getD []).find? (fun w => w.id == id)),
        ⟨ws, ts, hl, qn, se, aw, none⟩) := rfl

theorem saveWorkspace_run (w now ws ts hl qn se aw) :
    saveWorkspace w now ⟨ws, ts, hl, qn, se, aw, none⟩ =
      (.ok (), ⟨some (upsertWorkspace w now (ws.getD [])), ts, hl, qn, se, aw, none⟩) := rfl

theorem getActiveWorkspace_run (ws ts hl qn se aw) :
    getActiveWorkspace ⟨ws, ts, hl, qn, se, aw, none⟩ =
      (.ok (orNullStr aw), ⟨ws, ts, hl, qn, se, aw, none⟩) := rfl

theorem getSettings_run (ws ts hl qn se aw) :
    getSettings ⟨ws, ts, hl, qn, se, aw, none⟩ =
      (.ok (mergeSettings defaultSettings (se.getD emptySettings)),
        ⟨ws, ts, hl, qn, se, aw, none⟩) := rfl

theorem saveSettings_run (s ws ts hl qn se aw) :
    saveSettings s ⟨ws, ts, hl, qn, se, aw, none⟩ =
      (.ok (), ⟨ws, ts, hl, qn,
        some (mergeSettings (mergeSettings defaultSettings (se.getD emptySettings)) s),
        aw, none⟩) := rfl

theorem getAllTabSets_run (ws ts hl qn se aw) :
    getAllTabSets ⟨ws, ts, hl, qn, se, aw, none⟩ =
      (.ok (ts.getD []), ⟨ws, ts, hl, qn, se, aw, none⟩) := rfl

theorem getAllHighlights_run (ws ts hl qn se aw) :
    getAllHighlights ⟨ws, ts, hl, qn, se, aw, none⟩ =
      (.ok (hl.getD []), ⟨ws, ts, hl, qn, se, aw, none⟩) := rfl

theorem getHighlights_run (wid lim ws ts hl qn se aw) :
    getHighlights wid lim ⟨ws, ts, hl, qn, se, aw, none⟩ =
      (.ok (((getGroup (hl.getD []) wid).getD []).take lim),
        ⟨ws, ts, hl, qn, se, aw, none⟩) := rfl

theorem getWorkspaceTabSets_run (wid ws ts hl qn se aw) :
    getWorkspaceTabSets wid ⟨ws, ts, hl, qn, se, aw, none⟩ =
      (.ok ((ts.getD []).filter (fun t => t.workspaceId == wid)),
        ⟨ws, ts, hl, qn, se, aw, none⟩) := rfl

theorem setActiveWorkspace_run (id now ws ts hl qn se aw) :
    setActiveWorkspace id now ⟨ws, ts, hl, qn, se, aw, none⟩ =
      (.ok (), ⟨some ((ws.getD []).map (fun w =>
          { w with isActive := some w.id == id,
                   updatedAt := if some w.id == id then now else w.updatedAt })),
        ts, hl, qn, se, id, none⟩) := by
  cases id <;> rfl

theorem deleteWorkspace_run_active (id : String) (now : Nat) (ws ts hl qn se aw)
    (h : orNullStr aw = some id) :
    deleteWorkspace id now ⟨ws, ts, hl, qn, se, aw, none⟩ =
      (.ok (), ⟨some (((ws.getD []).filter (fun w => w.id != id)).map (fun w =>
          { w with isActive := some w.id == (none : Option String),
                   updatedAt := if some w.id == (none : Option String) then now
                     else w.updatedAt })),
        some ((ts.getD []).filter (fun t => t.workspaceId != id)),
        some ((hl.getD []).filter (fun p => p.1 != id)), qn, se, none, none⟩) := by
  have hb : (orNullStr aw == some id) = true := by rw [h]; exact beq_self_eq_true _
  simp only [deleteWorkspace, listWorkspaces, getActiveWorkspace, getAllTabSets,
    getAllHighlights, setActiveWorkspace, syncRemoveActive, syncGetActive,
    localGetWorkspaces, localSetWorkspaces, localGetTabSets, localSetTabSets,
    localGetHighlights, localSetHighlights, backendGet, backendSet, tryCatchM,
    throwM, M.bind_def, M.pure_def, M.bind, M.pure, hb, if_pos]
  rfl

theorem deleteWorkspace_run_inactive (id : String) (now : Nat) (ws ts hl qn se aw)
    (h : orNullStr aw ≠ some id) :
    deleteWorkspace id now ⟨ws, ts, hl, qn, se, aw, none⟩ =
      (.ok (), ⟨some ((ws.getD []).filter (fun w => w.id != id)),
        some ((ts.getD []).filter (fun t => t.workspaceId != id)),
        some ((hl.getD []).filter (fun p => p.1 != id)), qn, se, aw, none⟩) := by
  have hb : (orNullStr aw == some id) = false := by
    simp [beq_eq_false_iff_ne, h]
  simp only [deleteWorkspace, listWorkspaces, getActiveWorkspace, getAllTabSets,
    getAllHighlights, setActiveWorkspace, syncRemoveActive, syncGetActive,
    localGetWorkspaces, localSetWorkspaces, localGetTabSets, localSetTabSets,
    localGetHighlights, localSetHighlights, backendGet, backendSet, tryCatchM,
    throwM, M.bind_def, M.pure_def, M.bind, M.pure, hb]
  rfl

theorem getGroup_setGroup_self (k : String) (v : List Highlight) (m : HighlightMap) :
    getGroup (setGroup k v m) k = some v := by
  induction m with
  | nil => simp [setGroup, getGroup, List.find?]
  | cons p ps ih =>
    by_cases h : p.1 = k
    · simp [setGroup, getGroup, List.find?, h]
    · have hb : (p.1 == k) = false := by simp [h]
      simpa [setGroup, getGroup, List.find?, hb] using ih

theorem appendHighlight_run (wid : String) (h : Highlight) (K : Nat)
    (ws ts hl qn se aw)
    (hcap : (mergeSettings defaultSettings (se.getD emptySettings)).maxHighlights = some K)
    (hK : K ≠ 0) :
    ∃ m : HighlightMap,
      appendHighlight wid h ⟨ws, ts, hl, qn, se, aw, none⟩ =
        (.ok (), ⟨ws, ts, some m, qn, se, aw, none⟩) ∧
      getGroup m wid = some ((h :: (getGroup (hl.getD []) wid).getD []).take K) := by
  have hKb : (K == 0) = false := by simp [hK]
  simp only [appendHighlight, getAllHighlights, getSettings, syncGetSettings,
    localGetHighlights, localSetHighlights, backendGet, backendSet, tryCatchM,
    throwM, M.bind_def, M.pure_def, M.bind, M.pure, hcap, hKb,
    Bool.false_eq_true, if_false]
  rcases hg : getGroup (hl.getD []) wid with _ | g
  · simp only [hg, Option.getD_none, getGroup_setGroup_self, Option.getD_some]
    have hlen : ¬((h :: ([] : List Highlight)).length > K) := by
      simp only [List.length_cons, List.length_nil]
      omega
    rw [if_neg hlen]
    refine ⟨_, rfl, ?_⟩
    rw [getGroup_setGroup_self]
    have hone : List.take K [h] = [h] := List.take_of_length_le (by simp; omega)
    rw [hone]
  · simp only [hg, Option.getD_some, getGroup_setGroup_self]
    by_cases hlen : (h :: g).length > K
    · rw [if_pos hlen]
      exact ⟨_, rfl, by rw [getGroup_setGroup_self]⟩
    · rw [if_neg hlen]
      refine ⟨_, rfl, ?_⟩
      rw [getGroup_setGroup_self, List.take_of_length_le (by omega)]

theorem take_append_take {α : Type} (xs l : List α) (K : Nat) :
    (xs ++ l.take K).take K = (xs ++ l).take K := by
  rw [List.take_append_eq_append_take, List.take_append_eq_append_take, List.take_take]
  have h : (K - xs.length) ⊓ K = K - xs.length := by omega
  rw [h]

theorem foldl_take_eq (K : Nat) (hs : List Highlight) :
    ∀ g0 : List Highlight, hs ≠ [] →
      hs.foldl (fun g h => (h :: g).take K) g0 = (hs.reverse ++ g0).take K := by
  induction hs with
  | nil => intro g0 hne; exact absurd rfl hne
  | cons h t ih =>
    intro g0 _
    cases t with
    | nil => simp
    | cons h2 t2 =>
      rw [List.foldl_cons, ih _ (by simp)]
      rw [take_append_take]
      simp [List.append_assoc]

theorem appendHighlightSeq_run (wid : String) (K : Nat) (hs : List Highlight) :
    ∀ (ws : Option (List Workspace)) (ts : Option (List TabSet))
      (hl : Option HighlightMap) (qn : List (String × String))
      (se : Option Settings) (aw : Option String),
      (mergeSettings defaultSettings (se.getD emptySettings)).maxHighlights = some K →
      K ≠ 0 →
      ∃ hl' : Option HighlightMap,
        appendHighlightSeq wid hs ⟨ws, ts, hl, qn, se, aw, none⟩ =
          (.ok (), ⟨ws, ts, hl', qn, se, aw, none⟩) ∧
        (getGroup (hl'.getD []) wid).getD [] =
          hs.foldl (fun g h => (h :: g).take K) ((getGroup (hl.getD []) wid).getD []) := by
  induction hs with
  | nil =>
    intro ws ts hl qn se aw _ _
    exact ⟨hl, rfl, rfl⟩
  | cons h t ih =>
    intro ws ts hl qn se aw hcap hK
    obtain ⟨m, hrun, hgrp⟩ := appendHighlight_run wid h K ws ts hl qn se aw hcap hK
    obtain ⟨hl', hrun', hgrp'⟩ := ih ws ts (some m) qn se aw hcap hK
    refine ⟨hl', ?_, ?_⟩
    · simp only [appendHighlightSeq, M.bind_def, M.bind, hrun]
      exact hrun'
    · rw [hgrp', List.foldl_cons]
      congr 1
      simp only [Option.getD_some]
      rw [hgrp]
      rfl

theorem find?_upsert_of_mem (w : Workspace) (now : Nat) (L : List Workspace)
    (hmem : ∃ x ∈ L, x.id = w.id) :
    (upsertWorkspace w now L).find? (fun x => x.id == w.id) =
      some { w with updatedAt := now } := by
  induction L with
  | nil => obtain ⟨x, hx, _⟩ := hmem; exact absurd hx (List.not_mem_nil x)
  | cons y ys ih =>
    by_cases hy : y.id = w.id
    · simp [upsertWorkspace, hy, List.find?]
    · have hb : (y.id == w.id) = false := by simp [hy]
      obtain ⟨x, hx, hxid⟩ := hmem
      rcases List.mem_cons.mp hx with rfl | hx'
      · exact absurd hxid hy
      · simp only [upsertWorkspace, hb, if_neg, Bool.false_eq_true, ite_false,
          List.find?, hb]
        exact ih ⟨x, hx', hxid⟩

theorem find?_upsert_of_not_mem (w : Workspace) (now : Nat) (L : List Workspace)
    (hmem : ∀ x ∈ L, x.id ≠ w.id) :
    (upsertWorkspace w now L).find? (fun x => x.id == w.id) = some w := by
  induction L with
  | nil => simp [upsertWorkspace, List.find?]
  | cons y ys ih =>
    have hy : y.id ≠ w.id := hmem y (List.mem_cons_self y ys)
    have hb : (y.id == w.id) = false := by simp [hy]
    simp only [upsertWorkspace, hb, Bool.false_eq_true, ite_false, List.find?, hb]
    exact ih (fun x hx => hmem x (List.mem_cons_of_mem y hx))

theorem mergeField_assoc {α : Type} (a b c : Option α) :
    mergeField (mergeField a b) c = mergeField a (mergeField b c) := by
  cases b <;> cases c <;> rfl

theorem mergeField_self {α : Type} (a : Option α) : mergeField a a = a := by
  cases a <;> rfl

theorem mergeSettings_assoc (a b c : Settings) :
    mergeSettings (mergeSettings a b) c = mergeSettings a (mergeSettings b c) := by
  simp [mergeSettings, mergeField_assoc]

theorem mergeSettings_self (a : Settings) : mergeSettings a a = a := by
  simp [mergeSettings, mergeField_self]

theorem active_ids_preserved (idOpt : Option String) (now : Nat) (L : List Workspace) :
    ((L.map (fun w =>
        { w with isActive := some w.id == idOpt,
                 updatedAt := if some w.id == idOpt then now else w.updatedAt })).map
      Workspace.id) = L.map Workspace.id := by
  rw [List.map_map]
  rfl

theorem countP_active_le_one (idOpt : Option String) (now : Nat) (L : List Workspace)
    (hN : (L.map Workspace.id).Nodup) :
    ((L.map (fun w =>
        { w with isActive := some w.id == idOpt,
                 updatedAt := if some w.id == idOpt then now else w.updatedAt })).countP
      (fun w => w.isActive)) ≤ 1 := by
  rw [List.countP_map]
  cases idOpt with
  | none =>
    show L.countP (fun _ => false) ≤ 1
    simp
  | some x =>
    calc L.countP (fun w => w.id == x)
        = (L.map Workspace.id).countP (fun s => s == x) :=
          (List.countP_map (fun s => s == x) Workspace.id L).symm
      _ = (L.map Workspace.id).count x := (List.count_eq_countP _ _).symm
      _ ≤ 1 := List.nodup_iff_count_le_one.mp hN x

theorem active_flag_mem (idOpt : Option String) (now : Nat) (L : List Workspace)
    (w' : Workspace)
    (hmem : w' ∈ L.map (fun w =>
        { w with isActive := some w.id == idOpt,
                 updatedAt := if some w.id == idOpt then now else w.updatedAt })) :
    w'.isActive = (some w'.id == idOpt) := by
  rcases List.mem_map.mp hmem with ⟨w, _, rfl⟩
  rfl

/-- Claim C1 (invariant, confirmed): for every sequence of
`setActiveWorkspace` calls on a store whose workspace ids are pairwise
distinct, after each call completes (each call is the last call `c` of some
prefix `calls ++ [c]`) the call sequence has succeeded, `listWorkspaces()`
returns exactly the stored collection, at most one stored workspace has
`isActive = true`, any active workspace's id is the argument of the last
call with a non-null id, and if the last call passed null then no workspace
is active. -/
theorem C1_single_active_workspace (st : Store)
    (calls : List (Option String × Nat)) (c : Option String × Nat)
    (hn : workspaceIdsNodup st) (hfail : st.fail = none) :
    (setActiveSeq (calls ++ [c]) st).1 = .ok () ∧
    (listWorkspaces (setActiveSeq (calls ++ [c]) st).2).1 =
      .ok (storedWorkspaces (setActiveSeq (calls ++ [c]) st).2) ∧
    ((storedWorkspaces (setActiveSeq (calls ++ [c]) st).2).countP
      (fun w => w.isActive)) ≤ 1 ∧
    (∀ w ∈ storedWorkspaces (setActiveSeq (calls ++ [c]) st).2,
       w.isActive = true → c.1 = some w.id) ∧
    (c.1 = none → ∀ w ∈ storedWorkspaces (setActiveSeq (calls ++ [c]) st).2,
       w.isActive = false) := by
  induction calls generalizing st with
  | nil =>
    obtain ⟨ws, ts, hl, qn, se, aw, f⟩ := st
    cases hfail
    have hrun := setActiveWorkspace_run c.1 c.2 ws ts hl qn se aw
    simp only [List.nil_append, setActiveSeq, M.bind_def, M.bind, hrun,
      M.pure_def, M.pure]
    refine ⟨trivial, rfl, ?_, ?_, ?_⟩
    · exact countP_active_le_one c.1 c.2 (ws.getD []) hn
    · intro w hw hact
      have hflag := active_flag_mem c.1 c.2 (ws.getD []) w hw
      have hbeq : (some w.id == c.1) = true := by rw [← hflag]; exact hact
      exact (eq_of_beq hbeq).symm
    · intro hc w hw
      have hflag := active_flag_mem c.1 c.2 (ws.getD []) w hw
      rw [hflag, hc]
      rfl
  | cons a t ih =>
    obtain ⟨ws, ts, hl, qn, se, aw, f⟩ := st
    cases hfail
    have hrun := setActiveWorkspace_run a.1 a.2 ws ts hl qn se aw
    have hn1 : workspaceIdsNodup ⟨some ((ws.getD []).map (fun w =>
        { w with isActive := some w.id == a.1,
                 updatedAt := if some w.id == a.1 then a.2 else w.updatedAt })),
        ts, hl, qn, se, a.1, none⟩ := by
      show (((ws.getD []).map (fun w =>
        { w with isActive := some w.id == a.1,
                 updatedAt := if some w.id == a.1 then a.2 else w.updatedAt })).map
          Workspace.id).Nodup
      rw [active_ids_preserved]
      exact hn
    simp only [List.cons_append, setActiveSeq, M.bind_def, M.bind, hrun]
    exact ih _ hn1 rfl

/-- Witness for C1: in the two-workspace demo store, activating `b` and
then `a` succeeds and leaves `a` as the single active workspace. -/
theorem C1_single_active_workspace_witness :
    workspaceIdsNodup demoStore ∧ demoStore.fail = none ∧
    ((setActiveSeq ([(some "b", 1)] ++ [(some "a", 2)]) demoStore).1 = .ok () ∧
     (listWorkspaces (setActiveSeq ([(some "b", 1)] ++ [(some "a", 2)]) demoStore).2).1 =
       .ok (storedWorkspaces (setActiveSeq ([(some "b", 1)] ++ [(some "a", 2)]) demoStore).2) ∧
     ((storedWorkspaces (setActiveSeq ([(some "b", 1)] ++ [(some "a", 2)]) demoStore).2).countP
       (fun w => w.isActive)) ≤ 1 ∧
     (∀ w ∈ storedWorkspaces (setActiveSeq ([(some "b", 1)] ++ [(some "a", 2)]) demoStore).2,
        w.isActive = true → some "a" = some w.id) ∧
     (some "a" = (none : Option String) →
        ∀ w ∈ storedWorkspaces (setActiveSeq ([(some "b", 1)] ++ [(some "a", 2)]) demoStore).2,
          w.isActive = false)) :=
  ⟨by decide, rfl,
    C1_single_active_workspace demoStore [(some "b", 1)] (some "a", 2) (by decide) rfl⟩

/-- Claim C2 (functional correctness, confirmed): after
`deleteWorkspace(id)` succeeds on a healthy store, `getWorkspaceTabSets(id)`
returns `[]`, `getHighlights(id)` returns `[]`, `getWorkspace(id)` returns
`null`, and if `id` was the active workspace, `getActiveWorkspace()`
returns `null`. -/
theorem C2_cascading_delete (st : Store) (id : String) (now limit : Nat)
    (hfail : st.fail = none) :
    (deleteWorkspace id now st).1 = .ok () ∧
    (getWorkspaceTabSets id (deleteWorkspace id now st).2).1 = .ok [] ∧
    (getHighlights id limit (deleteWorkspace id now st).2).1 = .ok [] ∧
    (getWorkspace id (deleteWorkspace id now st).2).1 = .ok none ∧
    (st.activeWorkspace = some id →
      (getActiveWorkspace (deleteWorkspace id now st).2).1 = .ok none) := by
  obtain ⟨ws, ts, hl, qn, se, aw, f⟩ := st
  cases hfail
  have hts : ((ts.getD []).filter (fun t => t.workspaceId != id)).filter
      (fun t => t.workspaceId == id) = [] := by
    rw [List.filter_eq_nil_iff]
    intro a ha
    have h2 := (List.mem_filter.mp ha).2
    simp only [bne_iff_ne, ne_eq] at h2
    simp [h2]
  have hhl : getGroup ((hl.getD []).filter (fun p => p.1 != id)) id = none := by
    have hfind : ((hl.getD []).filter (fun p => p.1 != id)).find?
        (fun p => p.1 == id) = none := by
      rw [List.find?_eq_none]
      intro p hp
      have h2 := (List.mem_filter.mp hp).2
      simp only [bne_iff_ne, ne_eq] at h2
      simp [h2]
    unfold getGroup
    rw [hfind]
    rfl
  by_cases haw : orNullStr aw = some id
  · rw [deleteWorkspace_run_active id now ws ts hl qn se aw haw]
    refine ⟨rfl, ?_, ?_, ?_, fun _ => rfl⟩
    · rw [getWorkspaceTabSets_run]
      show Except.ok _ = _
      rw [Option.getD_some, hts]
    · rw [getHighlights_run]
      show Except.ok _ = _
      rw [Option.getD_some, hhl]
      simp
    · rw [getWorkspace_run]
      show Except.ok _ = _
      congr 1
      rw [Option.getD_some, List.find?_eq_none]
      intro w' hw'
      rcases List.mem_map.mp hw' with ⟨w, hw, rfl⟩
      have h2 := (List.mem_filter.mp hw).2
      simp only [bne_iff_ne, ne_eq] at h2
      simp [h2]
  · rw [deleteWorkspace_run_inactive id now ws ts hl qn se aw haw]
    refine ⟨rfl, ?_, ?_, ?_, ?_⟩
    · rw [getWorkspaceTabSets_run]
      show Except.ok _ = _
      rw [Option.getD_some, hts]
    · rw [getHighlights_run]
      show Except.ok _ = _
      rw [Option.getD_some, hhl]
      simp
    · rw [getWorkspace_run]
      show Except.ok _ = _
      congr 1
      rw [Option.getD_some, List.find?_eq_none]
      intro w hw
      have h2 := (List.mem_filter.mp hw).2
      simp only [bne_iff_ne, ne_eq] at h2
      simp [h2]
    · intro hraw
      subst hraw
      rw [getActiveWorkspace_run]
      show Except.ok (orNullStr (some id)) = Except.ok none
      by_cases hid : id = ""
      · subst hid
        rfl
      · exact absurd (show orNullStr (some id) = some id by simp [orNullStr, hid]) haw

/-- Witness for C2: deleting the active workspace `a` of the demo store
clears its record, tab sets, highlights, and the active pointer. -/
theorem C2_cascading_delete_witness :
    demoStore.fail = none ∧
    ((deleteWorkspace "a" 9 demoStore).1 = .ok () ∧
     (getWorkspaceTabSets "a" (deleteWorkspace "a" 9 demoStore).2).1 = .ok [] ∧
     (getHighlights "a" 50 (deleteWorkspace "a" 9 demoStore).2).1 = .ok [] ∧
     (getWorkspace "a" (deleteWorkspace "a" 9 demoStore).2).1 = .ok none ∧
     (demoStore.activeWorkspace = some "a" →
       (getActiveWorkspace (deleteWorkspace "a" 9 demoStore).2).1 = .ok none)) :=
  ⟨rfl, C2_cascading_delete demoStore "a" 9 50 rfl⟩

/-- Counterexample to claim C3 as stated: the claim asserts that with the
settings cap `maxHighlights = K` the store keeps at most `K` highlights and
`getHighlights` returns the `K` most recent ones, for every `K`.  With
`K = 0` and one append (`M = 1`), the code's JavaScript fallback
`settings.maxHighlights || 50` treats the stored cap 0 as falsy and uses 50
instead, so the appended highlight is kept: `getHighlights` returns `[h1]`,
not `[]`, and the stored group has 1 > 0 entries. -/
theorem C3_counterexample_cap_zero :
    effectiveMaxHighlights capZeroStore = some 0 ∧
    (getHighlights "w" 1 (appendHighlight "w" hFix1 capZeroStore).2).1 = .ok [hFix1] ∧
    (getHighlights "w" 1 (appendHighlight "w" hFix1 capZeroStore).2).1 ≠
      .ok ([] : List Highlight) ∧
    (storedGroup (appendHighlight "w" hFix1 capZeroStore).2 "w").length = 1 :=
  ⟨rfl, rfl, by decide, rfl⟩

/-- Claim C3 (functional correctness, corrected): with the settings cap
`maxHighlights = K` for `K ≥ 1` (a cap of 0 is falsy in JavaScript and is
replaced by the default 50 inside `appendHighlight`), for every workspace
id and every sequence of `K + M` `appendHighlight` calls `h1..h(K+M)` in
order, `getHighlights(id, K+M)` afterwards returns exactly the `K` most
recent highlights newest first (`[h(K+M), ..., h(M+1)]`, i.e. the first `K`
entries of the reversed input), and the stored per-workspace sequence never
exceeds `K` entries after any append. -/
theorem C3_highlight_cap_pos (st : Store) (wid : String) (hs : List Highlight)
    (K M : Nat) (hfail : st.fail = none)
    (hcap : effectiveMaxHighlights st = some K) (hK : 1 ≤ K)
    (hlen : hs.length = K + M) :
    (appendHighlightSeq wid hs st).1 = .ok () ∧
    (getHighlights wid (K + M) (appendHighlightSeq wid hs st).2).1 =
      .ok (hs.reverse.take K) ∧
    (∀ i < hs.length,
      (storedGroup (appendHighlightSeq wid (hs.take (i + 1)) st).2 wid).length ≤ K) := by
  obtain ⟨ws, ts, hl, qn, se, aw, f⟩ := st
  cases hfail
  have hK0 : K ≠ 0 := by omega
  have hcap' : (mergeSettings defaultSettings (se.getD emptySettings)).maxHighlights =
      some K := hcap
  have hne : hs ≠ [] := by
    intro h
    rw [h] at hlen
    simp at hlen
    omega
  obtain ⟨hl', hrun, hgrp⟩ := appendHighlightSeq_run wid K hs ws ts hl qn se aw hcap' hK0
  rw [hrun]
  refine ⟨rfl, ?_, ?_⟩
  · rw [getHighlights_run]
    show Except.ok _ = _
    rw [hgrp, foldl_take_eq K hs _ hne, List.take_take]
    have h2 : (K + M) ⊓ K = K := by omega
    rw [h2, List.take_append_of_le_length (by rw [List.length_reverse, hlen]; omega)]
  · intro i hi
    obtain ⟨hl2, hrun2, hgrp2⟩ :=
      appendHighlightSeq_run wid K (hs.take (i + 1)) ws ts hl qn se aw hcap' hK0
    rw [hrun2]
    show ((getGroup (hl2.getD []) wid).getD []).length ≤ K
    have hne2 : hs.take (i + 1) ≠ [] := by
      intro hnil
      rcases List.take_eq_nil_iff.mp hnil with h | h
      · omega
      · exact hne h
    rw [hgrp2, foldl_take_eq K _ _ hne2, List.length_take]
    omega

/-- Witness for C3: with cap `K = 2` and three appends (`M = 1`) on a fresh
store, the first two entries of the reversed input, `[h3, h2]`, are
returned, and no intermediate state stores more than 2 highlights. -/
theorem C3_highlight_cap_pos_witness :
    capTwoStore.fail = none ∧
    effectiveMaxHighlights capTwoStore = some 2 ∧
    1 ≤ 2 ∧
    ([hFix1, hFix2, hFix3].length = 2 + 1) ∧
    ((appendHighlightSeq "w" [hFix1, hFix2, hFix3] capTwoStore).1 = .ok () ∧
     (getHighlights "w" (2 + 1)
        (appendHighlightSeq "w" [hFix1, hFix2, hFix3] capTwoStore).2).1 =
       .ok [hFix3, hFix2] ∧
     (∀ i < [hFix1, hFix2, hFix3].length,
       (storedGroup (appendHighlightSeq "w"
          ([hFix1, hFix2, hFix3].take (i + 1)) capTwoStore).2 "w").length ≤ 2)) :=
  ⟨rfl, rfl, by decide, rfl,
    C3_highlight_cap_pos capTwoStore "w" [hFix1, hFix2, hFix3] 2 1 rfl rfl
      (by decide) rfl⟩

/-- Counterexample to claim C4 as stated: the claim asserts that after
`saveWorkspace(W)` the record returned by `getWorkspace(W.id)` has
`updatedAt` at least the time of the save call, whether or not a record
with that id already existed.  For a new record the code pushes the
caller's record verbatim: saving `wsFixA` (whose `updatedAt` is 0) at time
5 into an empty store returns a record with `updatedAt = 0 < 5`. -/
theorem C4_counterexample_stale_updatedAt :
    (saveWorkspace wsFixA 5 emptyStore).1 = .ok () ∧
    (getWorkspace "a" (saveWorkspace wsFixA 5 emptyStore).2).1 = .ok (some wsFixA) ∧
    wsFixA.updatedAt < 5 :=
  ⟨rfl, rfl, by decide⟩

/-- Claim C4 (algebraic/relational, corrected): after `saveWorkspace(W)`
succeeds, `getWorkspace(W.id)` returns a record equal to `W` in every field
except possibly `updatedAt`; if a record with id `W.id` already existed,
the returned `updatedAt` is exactly the save-call time (hence at least it),
but if no record existed the record is stored verbatim and the returned
`updatedAt` equals `W.updatedAt`, which may precede the save call. -/
theorem C4_upsert_roundtrip (st : Store) (w : Workspace) (now : Nat)
    (hfail : st.fail = none) :
    (saveWorkspace w now st).1 = .ok () ∧
    ((∃ x ∈ st.workspaces.getD [], x.id = w.id) →
      (getWorkspace w.id (saveWorkspace w now st).2).1 =
        .ok (some { w with updatedAt := now })) ∧
    ((∀ x ∈ st.workspaces.getD [], x.id ≠ w.id) →
      (getWorkspace w.id (saveWorkspace w now st).2).1 = .ok (some w)) := by
  obtain ⟨ws, ts, hl, qn, se, aw, f⟩ := st
  cases hfail
  rw [saveWorkspace_run]
  refine ⟨rfl, ?_, ?_⟩
  · intro hmem
    rw [getWorkspace_run]
    show Except.ok _ = _
    rw [Option.getD_some, find?_upsert_of_mem w now _ hmem]
  · intro hmem
    rw [getWorkspace_run]
    show Except.ok _ = _
    rw [Option.getD_some, find?_upsert_of_not_mem w now _ hmem]

/-- Witness for C4: saving an update record for the existing workspace `a`
of the demo store at time 7 stores it with `updatedAt = 7`. -/
theorem C4_upsert_roundtrip_witness :
    demoStore.fail = none ∧
    ((saveWorkspace wsFixRenamed 7 demoStore).1 = .ok () ∧
     ((∃ x ∈ demoStore.workspaces.getD [], x.id = wsFixRenamed.id) →
       (getWorkspace wsFixRenamed.id (saveWorkspace wsFixRenamed 7 demoStore).2).1 =
         .ok (some { wsFixRenamed with updatedAt := 7 })) ∧
     ((∀ x ∈ demoStore.workspaces.getD [], x.id ≠ wsFixRenamed.id) →
       (getWorkspace wsFixRenamed.id (saveWorkspace wsFixRenamed 7 demoStore).2).1 =
         .ok (some wsFixRenamed))) :=
  ⟨rfl, C4_upsert_roundtrip demoStore wsFixRenamed 7 rfl⟩

/-- Claim C5 (algebraic/relational, confirmed): on a healthy store,
`saveSettings(A); saveSettings(B)` succeeds and produces exactly the same
store — hence the same `getSettings()` observation — as the single call
`saveSettings({...A, ...B})`, for arbitrary partial objects `A` and `B`
(merging `A` then `B` with `B` winning covers both the disjoint-keys case
and the later-call-wins case for shared keys). -/
theorem C5_settings_merge_compose (st : Store) (A B : Settings)
    (hfail : st.fail = none) :
    (saveSettings B (saveSettings A st).2).1 = .ok () ∧
    (saveSettings B (saveSettings A st).2).2 = (saveSettings (mergeSettings A B) st).2 ∧
    (getSettings (saveSettings B (saveSettings A st).2).2).1 =
      (getSettings (saveSettings (mergeSettings A B) st).2).1 := by
  obtain ⟨ws, ts, hl, qn, se, aw, f⟩ := st
  cases hfail
  rw [saveSettings_run]
  rw [saveSettings_run, saveSettings_run]
  have key : mergeSettings
      (mergeSettings defaultSettings
        ((some (mergeSettings (mergeSettings defaultSettings (se.getD emptySettings)) A)).getD
          emptySettings)) B =
      mergeSettings (mergeSettings defaultSettings (se.getD emptySettings))
        (mergeSettings A B) := by
    rw [Option.getD_some, ← mergeSettings_assoc, ← mergeSettings_assoc, mergeSettings_self,
      mergeSettings_assoc]
  refine ⟨rfl, ?_, ?_⟩ <;> rw [key]

/-- Witness for C5: saving a theme and then a highlight cap on an empty
store equals saving the merged object at once. -/
theorem C5_settings_merge_compose_witness :
    emptyStore.fail = none ∧
    ((saveSettings sFixB (saveSettings sFixA emptyStore).2).1 = .ok () ∧
     (saveSettings sFixB (saveSettings sFixA emptyStore).2).2 =
       (saveSettings (mergeSettings sFixA sFixB) emptyStore).2 ∧
     (getSettings (saveSettings sFixB (saveSettings sFixA emptyStore).2).2).1 =
       (getSettings (saveSettings (mergeSettings sFixA sFixB) emptyStore).2).1) :=
  ⟨rfl, C5_settings_merge_compose emptyStore sFixA sFixB rfl⟩

/-- Claim C6 (algebraic/relational, confirmed): on a healthy store,
`importData(exportData())` succeeds and leaves the observable state
unchanged — `listWorkspaces()` and `getSettings()` return what they
returned before, and the stored workspace collection, tab-set collection,
highlight map and settings record are unchanged key-for-key, because import
writes the exported key maps back additively without clearing. -/
theorem C6_export_import_roundtrip (st : Store) (now : Nat)
    (hfail : st.fail = none) :
    (exportImportRoundTrip now st).1 = .ok () ∧
    (listWorkspaces (exportImportRoundTrip now st).2).1 = (listWorkspaces st).1 ∧
    (getSettings (exportImportRoundTrip now st).2).1 = (getSettings st).1 ∧
    (exportImportRoundTrip now st).2.workspaces = st.workspaces ∧
    (exportImportRoundTrip now st).2.tabSets = st.tabSets ∧
    (exportImportRoundTrip now st).2.highlights = st.highlights ∧
    (exportImportRoundTrip now st).2.settings = st.settings := by
  obtain ⟨ws, ts, hl, qn, se, aw, f⟩ := st
  cases hfail
  have hrun : exportImportRoundTrip now ⟨ws, ts, hl, qn, se, aw, none⟩ =
      (.ok (), ⟨mergeField ws ws, mergeField ts ts, mergeField hl hl,
        qnSetAll qn qn, mergeField se se, mergeField aw aw, none⟩) := rfl
  rw [hrun]
  simp only [mergeField_self]
  rw [listWorkspaces_run, listWorkspaces_run, getSettings_run, getSettings_run]
  simp

/-- Witness for C6: exporting and re-importing the demo store changes
nothing observable. -/
theorem C6_export_import_roundtrip_witness :
    demoStore.fail = none ∧
    ((exportImportRoundTrip 7 demoStore).1 = .ok () ∧
     (listWorkspaces (exportImportRoundTrip 7 demoStore).2).1 =
       (listWorkspaces demoStore).1 ∧
     (getSettings (exportImportRoundTrip 7 demoStore).2).1 =
       (getSettings demoStore).1 ∧
     (exportImportRoundTrip 7 demoStore).2.workspaces = demoStore.workspaces ∧
     (exportImportRoundTrip 7 demoStore).2.tabSets = demoStore.tabSets ∧
     (exportImportRoundTrip 7 demoStore).2.highlights = demoStore.highlights ∧
     (exportImportRoundTrip 7 demoStore).2.settings = demoStore.settings) :=
  ⟨rfl, C6_export_import_roundtrip demoStore 7 rfl⟩

/-- Claim C7 (error handling, confirmed): when every backend call rejects
with cause `c`, the read operations degrade instead of raising —
`listWorkspaces()` returns `[]`, `getWorkspace` returns `null`,
`getHighlights` returns `[]`, `getSettings` returns the pure defaults —
while every write operation (`saveWorkspace`, `deleteWorkspace`,
`setActiveWorkspace`, `saveTabSet`, `appendHighlight`, `saveSettings`,
`clearAllData`, `exportData`, `importData`) rejects with a descriptive
`Failed to <operation>: <cause>` error. -/
theorem C7_error_handling (st : Store) (c : String) (id wid : String) (lim : Nat)
    (w : Workspace) (h1 : Highlight) (tabs : List TabRef) (nm : Option String)
    (now : Nat) (tsId dateLabel : String) (s : Settings) (idOpt : Option String)
    (sd : SyncDump) (ld : LocalDump)
    (hfail : st.fail = some c) :
    (listWorkspaces st).1 = .ok [] ∧
    (getWorkspace id st).1 = .ok none ∧
    (getHighlights wid lim st).1 = .ok [] ∧
    (getSettings st).1 = .ok defaultSettings ∧
    (saveWorkspace w now st).1 = .error ("Failed to save workspace: " ++ c) ∧
    (deleteWorkspace id now st).1 = .error ("Failed to delete workspace: " ++ c) ∧
    (setActiveWorkspace idOpt now st).1 =
      .error ("Failed to set active workspace: " ++ c) ∧
    (saveTabSet wid tabs nm now tsId dateLabel st).1 =
      .error ("Failed to save tab set: " ++ c) ∧
    (appendHighlight wid h1 st).1 = .error ("Failed to append highlight: " ++ c) ∧
    (saveSettings s st).1 = .error ("Failed to save settings: " ++ c) ∧
    (clearAllData st).1 = .error ("Failed to clear all data: " ++ c) ∧
    (exportData now st).1 = .error ("Failed to export data: " ++ c) ∧
    (importData sd ld st).1 = .error ("Failed to import data: " ++ c) := by
  obtain ⟨ws, ts, hl, qn, se, aw, f⟩ := st
  cases hfail
  refine ⟨rfl, rfl, rfl, rfl, rfl, rfl, ?_, rfl, rfl, rfl, rfl, rfl, rfl⟩
  cases idOpt <;> rfl

/-- Witness for C7: on the failing store every read degrades and every
write rejects with its descriptive message. -/
theorem C7_error_handling_witness :
    failingStore.fail = some "backend unavailable" ∧
    ((listWorkspaces failingStore).1 = .ok [] ∧
     (getWorkspace "a" failingStore).1 = .ok none ∧
     (getHighlights "w" 50 failingStore).1 = .ok [] ∧
     (getSettings failingStore).1 = .ok defaultSettings ∧
     (saveWorkspace wsFixA 0 failingStore).1 =
       .error "Failed to save workspace: backend unavailable" ∧
     (deleteWorkspace "a" 0 failingStore).1 =
       .error "Failed to delete workspace: backend unavailable" ∧
     (setActiveWorkspace (some "a") 0 failingStore).1 =
       .error "Failed to set active workspace: backend unavailable" ∧
     (saveTabSet "w" [] none 0 "ts1" "1/1/2025" failingStore).1 =
       .error "Failed to save tab set: backend unavailable" ∧
     (appendHighlight "w" hFix1 failingStore).1 =
       .error "Failed to append highlight: backend unavailable" ∧
     (saveSettings sFixA failingStore).1 =
       .error "Failed to save settings: backend unavailable" ∧
     (clearAllData failingStore).1 =
       .error "Failed to clear all data: backend unavailable" ∧
     (exportData 0 failingStore).1 =
       .error "Failed to export data: backend unavailable" ∧
     (importData ⟨none, none⟩ ⟨none, none, none, []⟩ failingStore).1 =
       .error "Failed to import data: backend unavailable") :=
  ⟨rfl, C7_error_handling failingStore "backend unavailable" "a" "w" 50 wsFixA hFix1
    [] none 0 "ts1" "1/1/2025" sFixA (some "a") ⟨none, none⟩ ⟨none, none, none, []⟩ rfl⟩

/-- Claim C8 (functional correctness, confirmed): on a healthy store the
legacy read `ExtensionStorage.get('savedTexts')` returns the flattening of
all per-workspace highlight groups into one list, and every highlight
stored under any workspace appears in that flattened result. -/
theorem C8_savedTexts_flatten (st : Store) (hfail : st.fail = none) :
    (ExtensionStorage.get "savedTexts" st).1 =
      .ok (.savedTexts (((st.highlights.getD []).map (fun p => p.2)).flatten)) ∧
    ∀ p ∈ st.highlights.getD [], ∀ h ∈ p.2,
      h ∈ ((st.highlights.getD []).map (fun p => p.2)).flatten := by
  obtain ⟨ws, ts, hl, qn, se, aw, f⟩ := st
  cases hfail
  refine ⟨rfl, ?_⟩
  intro p hp h hh
  rw [List.mem_flatten]
  exact ⟨p.2, List.mem_map.mpr ⟨p, hp, rfl⟩, hh⟩

/-- Witness for C8: on the demo store the legacy `savedTexts` view is the
single flattened list `[hFix1]`. -/
theorem C8_savedTexts_flatten_witness :
    demoStore.fail = none ∧
    ((ExtensionStorage.get "savedTexts" demoStore).1 = .ok (.savedTexts [hFix1]) ∧
     ∀ p ∈ demoStore.highlights.getD [], ∀ h ∈ p.2,
       h ∈ ((demoStore.highlights.getD []).map (fun p => p.2)).flatten) :=
  ⟨rfl, C8_savedTexts_flatten demoStore rfl⟩

/-- Counterexample to claim C9 as stated: the claim asserts that for every
non-null id string, `setActiveWorkspace` succeeds and a subsequent
`getActiveWorkspace()` returns exactly that id.  At `id = ""` the call
succeeds and stores the empty string (`"" === null` is false), but
`getActiveWorkspace` reads the pointer through `result[KEY] || null`, and
the falsy empty string collapses to `null`: the read returns `none`, not
`some ""`. -/
theorem C9_counterexample_empty_id :
    (setActiveWorkspace (some "") 4 demoStore).1 = .ok () ∧
    (setActiveWorkspace (some "") 4 demoStore).2.activeWorkspace = some "" ∧
    (getActiveWorkspace (setActiveWorkspace (some "") 4 demoStore).2).1 = .ok none ∧
    (getActiveWorkspace (setActiveWorkspace (some "") 4 demoStore).2).1 ≠
      .ok (some "") :=
  ⟨rfl, rfl, rfl, by decide⟩

/-- Claim C9 (functional correctness, corrected): `setActiveWorkspace`
performs no existence check — for every non-null, non-empty id, including
one that matches no stored workspace, the call succeeds and
`getActiveWorkspace()` afterwards returns exactly that id; when no stored
workspace carries the id, every workspace's `isActive` flag is false, so
the active pointer dangles.  (For the empty-string id the pointer is
stored but reads back as `null` through the `|| null` falsy collapse —
see the counterexample.) -/
theorem C9_dangling_active_pointer_nonempty (st : Store) (id : String) (now : Nat)
    (hfail : st.fail = none) (hid : id ≠ "") :
    (setActiveWorkspace (some id) now st).1 = .ok () ∧
    (getActiveWorkspace (setActiveWorkspace (some id) now st).2).1 = .ok (some id) ∧
    ((∀ w ∈ storedWorkspaces st, w.id ≠ id) →
      ∀ w ∈ storedWorkspaces (setActiveWorkspace (some id) now st).2,
        w.isActive = false) := by
  obtain ⟨ws, ts, hl, qn, se, aw, f⟩ := st
  cases hfail
  rw [setActiveWorkspace_run]
  refine ⟨rfl, ?_, ?_⟩
  · rw [getActiveWorkspace_run]
    show Except.ok (orNullStr (some id)) = Except.ok (some id)
    simp [orNullStr, hid]
  · intro hno w hw
    have hflag := active_flag_mem (some id) now (ws.getD []) w hw
    rw [hflag]
    rcases List.mem_map.mp hw with ⟨x, hx, rfl⟩
    have hne : x.id ≠ id := hno x hx
    simp [hne]

/-- Witness for C9: activating the non-empty id `zzz`, which matches no
workspace of the demo store, succeeds, dangles the pointer at `zzz`, and
deactivates every workspace. -/
theorem C9_dangling_active_pointer_nonempty_witness :
    demoStore.fail = none ∧ "zzz" ≠ "" ∧
    ((setActiveWorkspace (some "zzz") 4 demoStore).1 = .ok () ∧
     (getActiveWorkspace (setActiveWorkspace (some "zzz") 4 demoStore).2).1 =
       .ok (some "zzz") ∧
     ((∀ w ∈ storedWorkspaces demoStore, w.id ≠ "zzz") →
       ∀ w ∈ storedWorkspaces (setActiveWorkspace (some "zzz") 4 demoStore).2,
         w.isActive = false)) :=
  ⟨rfl, by decide,
    C9_dangling_active_pointer_nonempty demoStore "zzz" 4 rfl (by decide)⟩

/-- Claim C10 (frame/effect, confirmed): calling the legacy write
`ExtensionStorage.set` with a key that is neither one of the explicitly
handled keys (`workspaces`, `activeWorkspaceId`, `config`) nor prefixed
`quickNotes_` — in particular `tabSets` or `savedTexts` — resolves
successfully and performs no storage write at all: the returned store is
the input store, unchanged in every key. -/
theorem C10_legacy_set_noop (st : Store) (key : String) (value : LegacyValue)
    (now : Nat)
    (h1 : key ≠ "workspaces") (h2 : key ≠ "activeWorkspaceId")
    (h3 : key ≠ "config") (h4 : key.startsWith "quickNotes_" = false) :
    ExtensionStorage.set key value now st = (.ok (), st) := by
  have b1 : (key == "workspaces") = false := by simp [h1]
  have b2 : (key == "activeWorkspaceId") = false := by simp [h2]
  have b3 : (key == "config") = false := by simp [h3]
  simp only [ExtensionStorage.set, b1, b2, b3, h4, Bool.false_eq_true, if_false,
    M.bind_def, M.bind, M.pure_def, M.pure]

/-- Witness for C10: writing the key `tabSets` through the legacy facade on
the demo store resolves but changes nothing. -/
theorem C10_legacy_set_noop_witness :
    "tabSets" ≠ "workspaces" ∧ "tabSets" ≠ "activeWorkspaceId" ∧
    "tabSets" ≠ "config" ∧ "tabSets".startsWith "quickNotes_" = false ∧
    ExtensionStorage.set "tabSets" (.tabSets []) 0 demoStore = (.ok (), demoStore) :=
  ⟨by decide, by decide, by decide, rfl,
    C10_legacy_set_noop demoStore "tabSets" (.tabSets []) 0 (by decide) (by decide)
      (by decide) rfl⟩
